import Mathlib

/-!
Verification of the TACA run-lifecycle controllers against their
natural-language specification.

The development shallowly embeds the two controllers present in the
sources (`taca/analysis/analysis_element.py` and
`taca/analysis/analysis_nanopore.py`) as pure Lean functions that
return the list of side-effecting calls ("events") the Python code
would perform, together with the resulting run state and whether an
exception escapes.  Components of the repository that are exercised
only through their tests in the sources (the Illumina base-mask
computation and the link-based transfer agent) are modelled from the
specification text, as marked in their doc comments.
-/

namespace Taca

/-! ## Element controller: `analysis_element.py`, `_process` -/

/-- Side-effecting calls performed by `_process` in
`taca/analysis/analysis_element.py`, in program order.  `updateStatusdb`
carries the status value being recorded (the sequencing branch calls
`run.update_statusdb()` without an argument; it is modelled as writing
the branch's current status `"sequencing"`).  `emailOperator` exists in
the event vocabulary because the specification's notification channel
is a collaborator; the element controller never emits it. -/
inductive EEvent where
  | parseRunParameters
  | updateStatusdb (status : String)
  | logWarnManifestMissing
  | mkdirDemuxDir
  | copyManifests
  | startDemux (manifest demuxDir : String)
  | aggregateDemuxResults
  | syncMetadata
  | makeTransferIndicator
  | transferRun
  | removeTransferIndicator
  | updateTransferLog
  | archiveRun
  | logInfoTransferSkip
  | logWarnAlreadyTransferred
  | logWarnUnknownStatus
  | logWarnProcessingError
  | emailOperator
  deriving DecidableEq, Repr

/-- The filesystem and database evidence `_process` reads for one run:
the sequencing-completion check, the demultiplexing status string
returned by `get_demultiplexing_status`, manifest presence, the two
transfer-ledger predicates, and the status last recorded in statusdb. -/
structure ERun where
  sequencingDone : Bool
  demuxStatus : String
  manifestExists : Bool
  isTransferred : Bool
  transferOngoing : Bool
  recorded : Option String
  deriving DecidableEq, Repr

/-- Whether the Python call raised an uncaught exception. -/
inductive EOutcome where
  | ok
  | raised (msg : String)
  deriving DecidableEq, Repr

/-- Result of one `_process` call: the events performed (in order), the
run state afterwards, and whether an exception escaped. -/
structure EResult where
  events : List EEvent
  run : ERun
  outcome : EOutcome
  deriving DecidableEq, Repr

/-- Modelled from the spec: `Aviti_Run.status_changed` (the
`taca/element` run class is not among the sources; §4.1 gives its
contract): a statusdb write happens only when the candidate status
differs from the last recorded value. -/
def statusChanged (r : ERun) (s : String) : Bool :=
  r.recorded ≠ some s

/-- The guarded `if run.status_changed(s): run.update_statusdb(s)`
pattern of `_process`: the write event is emitted, and the recorded
value updated, only when the status changed. -/
def recordStatus (r : ERun) (s : String) : List EEvent × ERun :=
  if statusChanged r s then
    ([EEvent.updateStatusdb s], { r with recorded := some s })
  else ([], r)

/-- Shallow embedding of `_process` from
`taca/analysis/analysis_element.py` (lines 19-99).  Faithful to the
source, including its two slips: in the manifest branch the loop
`for run_manifest in run_manifests.sort():` iterates over the `None`
returned by `list.sort()` and raises `TypeError` after
`os.mkdir(run.demux_dir)` and `run.copy_manifests()` have run; in the
transfer branch the statement `run.aggregate_demux_results` is a bare
attribute access, so no aggregation call is performed. -/
def process (r : ERun) : EResult :=
  let ev := [EEvent.parseRunParameters]
  if ¬ r.sequencingDone then
    let (w, r') := recordStatus r "sequencing"
    ⟨ev ++ w, r', EOutcome.ok⟩
  else if r.demuxStatus = "not started" then
    if ¬ r.manifestExists then
      ⟨ev ++ [EEvent.logWarnManifestMissing], r, EOutcome.ok⟩
    else
      ⟨ev ++ [EEvent.mkdirDemuxDir, EEvent.copyManifests], r,
        EOutcome.raised "TypeError"⟩
  else if r.demuxStatus = "ongoing" then
    let (w, r') := recordStatus r "demultiplexing"
    ⟨ev ++ w, r', EOutcome.ok⟩
  else if r.demuxStatus = "finished" then
    if ¬ r.isTransferred ∧ ¬ r.transferOngoing then
      let (w1, r1) := recordStatus r "transferring"
      let (w2, r2) := recordStatus r1 "transferred"
      let (w3, r3) := recordStatus r2 "archived"
      ⟨ev ++ [EEvent.syncMetadata, EEvent.makeTransferIndicator] ++ w1
          ++ [EEvent.transferRun, EEvent.removeTransferIndicator,
              EEvent.updateTransferLog] ++ w2
          ++ [EEvent.archiveRun] ++ w3,
        r3, EOutcome.ok⟩
    else if ¬ r.isTransferred ∧ r.transferOngoing then
      let (w, r') := recordStatus r "transferring"
      ⟨ev ++ w ++ [EEvent.logInfoTransferSkip], r', EOutcome.ok⟩
    else if r.isTransferred then
      ⟨ev ++ [EEvent.logWarnAlreadyTransferred], r, EOutcome.ok⟩
    else
      ⟨ev ++ [EEvent.logWarnUnknownStatus], r, EOutcome.ok⟩
  else
    ⟨ev, r, EOutcome.ok⟩

/-- Shallow embedding of the discovery loop of `run_preprocessing`
(lines 106-124): each run is processed inside `try: _process(runObj)
except: logger.warning(...); pass`, so a raising run contributes its
events plus the generic warning and the loop moves to the next run. -/
def elementHandleRun (r : ERun) : List EEvent :=
  let res := process r
  match res.outcome with
  | EOutcome.ok => res.events
  | EOutcome.raised _ => res.events ++ [EEvent.logWarnProcessingError]

/-- One poll cycle of the element controller over the discovered runs:
the per-run traces, one entry per run, in discovery order. -/
def runPreprocessingAll (runs : List ERun) : List (List EEvent) :=
  runs.map elementHandleRun

/-! ## Nanopore controller: `analysis_nanopore.py` -/

/-- The object a method call in `process_qc_run` / `process_user_run`
is made on.  In `process_qc_run` the name `ONT_user_run` is not bound
locally, so it resolves to the class imported at module level from
`taca.nanopore.ONT_run_classes`; in `process_user_run` the parameter
itself is named `ONT_user_run` and shadows the import, so there the
same name denotes the run object passed in. -/
inductive Recv where
  | importedClass
  | runObject
  deriving DecidableEq, Repr

/-- Side-effecting calls performed by the nanopore processing
functions, in program order.  The three method calls disputed between
the imported class and the passed run carry their receiver. -/
inductive NEvent where
  | touchDbEntry
  | assertContents (recv : Recv)
  | updateDbEntry (recv : Recv)
  | copyHtmlReport (recv : Recv)
  | copyMetadata
  | transferRun
  | updateTransferLog
  | archiveRun
  | logAnglerfishOngoing
  | fetchAnglerfishSamplesheet
  | runAnglerfish
  | logAnglerfishFinished
  | logAlreadyTransferred
  | logNotSynced
  | sendErrorMail (runName msg : String)
  deriving DecidableEq, Repr

/-- The evidence the nanopore processing functions read for one run:
the QC flag that selects the subclass in `process_run`, the sync and
transfer-log checks, and the Anglerfish exit code / PID / samplesheet
lookups used by `process_qc_run` (`none` exit code means no exit-code
file was found, i.e. Anglerfish was not run). -/
structure NRun where
  runName : String
  qc : Bool
  synced : Bool
  transferred : Bool
  anglerfishExit : Option Int
  anglerfishPidFound : Bool
  samplesheetFound : Bool
  deriving DecidableEq, Repr

/-- Result of one nanopore processing call. -/
structure NResult where
  events : List NEvent
  outcome : EOutcome
  deriving DecidableEq, Repr

/-- Python truthiness of the Anglerfish exit-code value: `None` and
`0` are falsy, every other integer is truthy. -/
def exitCodeTruthy : Option Int → Bool
  | none => false
  | some n => n ≠ 0

/-- The branch selected by the `if`/`elif` chain on
`anglerfish_exit_code` in `process_qc_run` (lines 193-234):
`anglerfish_exit_code and anglerfish_exit_code > 0` (run and failed),
`not anglerfish_exit_code` (not run),
`anglerfish_exit_code and anglerfish_exit_code == 0` (finished
successfully), and falling off the chain when no condition holds. -/
inductive AfBranch where
  | failedRaise
  | notRun
  | finishedOk
  | fallThrough
  deriving DecidableEq, Repr

/-- Branch dispatch of the exit-code chain, with Python's
short-circuiting `and` over the truthiness of the exit code. -/
def anglerfishBranch (c : Option Int) : AfBranch :=
  if exitCodeTruthy c && (match c with | some n => decide (n > 0) | none => false) then
    AfBranch.failedRaise
  else if ¬ exitCodeTruthy c then
    AfBranch.notRun
  else if exitCodeTruthy c && decide (c = some 0) then
    AfBranch.finishedOk
  else
    AfBranch.fallThrough

/-- Shallow embedding of `process_qc_run` (lines 126-234).  After the
sync check, the content assertion, statusdb update and HTML-report
copy are written in the source as `ONT_user_run.assert_contents()`,
`ONT_user_run.update_db_entry()` and `ONT_user_run.copy_html_report()`,
i.e. on the module-level imported class, not on the `ont_qc_run`
parameter.  The failed branch raises `AssertionError`; in the not-run
branch the messages around the samplesheet fetch are bare f-string
expressions, not logger calls, so only the fetch itself and
`run_anglerfish` are effects. -/
def qcProcess (r : NRun) : NResult :=
  let ev := [NEvent.touchDbEntry]
  if r.synced then
    let ev := ev ++ [NEvent.assertContents Recv.importedClass,
                     NEvent.updateDbEntry Recv.importedClass,
                     NEvent.copyHtmlReport Recv.importedClass]
    match anglerfishBranch r.anglerfishExit with
    | AfBranch.failedRaise => ⟨ev, EOutcome.raised "AssertionError"⟩
    | AfBranch.notRun =>
        if r.anglerfishPidFound then
          ⟨ev ++ [NEvent.logAnglerfishOngoing], EOutcome.ok⟩
        else if ¬ r.samplesheetFound then
          ⟨ev ++ [NEvent.fetchAnglerfishSamplesheet], EOutcome.ok⟩
        else
          ⟨ev ++ [NEvent.fetchAnglerfishSamplesheet, NEvent.runAnglerfish],
            EOutcome.ok⟩
    | AfBranch.finishedOk => ⟨ev ++ [NEvent.logAnglerfishFinished], EOutcome.ok⟩
    | AfBranch.fallThrough => ⟨ev, EOutcome.ok⟩
  else ⟨ev, EOutcome.ok⟩

/-- Shallow embedding of `process_user_run` (lines 50-123); here the
parameter shadows the imported name, so every call is on the run
object that was passed in. -/
def userProcess (r : NRun) : NResult :=
  let ev := [NEvent.touchDbEntry]
  if r.synced then
    if ¬ r.transferred then
      ⟨ev ++ [NEvent.assertContents Recv.runObject,
              NEvent.updateDbEntry Recv.runObject,
              NEvent.copyHtmlReport Recv.runObject,
              NEvent.copyMetadata, NEvent.transferRun,
              NEvent.updateTransferLog, NEvent.archiveRun],
        EOutcome.ok⟩
    else ⟨ev ++ [NEvent.logAlreadyTransferred], EOutcome.ok⟩
  else ⟨ev ++ [NEvent.logNotSynced], EOutcome.ok⟩

/-- Shallow embedding of `process_run` (lines 237-246): dispatch on
the QC flag. -/
def processRun (r : NRun) : NResult :=
  if r.qc then qcProcess r else userProcess r

/-- The per-run `try`/`except BaseException` body of the discovery
loop in `ont_transfer` (lines 271-278): a raising run contributes its
events plus `send_error_mail(os.path.basename(run_dir), e)`, which
mails the run name and the error with its traceback. -/
def ontHandleRun (r : NRun) : List NEvent :=
  let res := processRun r
  match res.outcome with
  | EOutcome.ok => res.events
  | EOutcome.raised msg => res.events ++ [NEvent.sendErrorMail r.runName msg]

/-- One poll cycle of the nanopore controller over the discovered
runs: the per-run traces, one entry per run, in discovery order. -/
def ontTransferAll (runs : List NRun) : List (List NEvent) :=
  runs.map ontHandleRun

/-! ## RunStatusDetector (spec §4.1) -/

/-- The three demultiplexing phases of §4.1. -/
inductive DemuxStatus where
  | notStarted
  | ongoing
  | finished
  deriving DecidableEq, Repr

/-- Modelled from the spec: `get_demultiplexing_status` (the
`taca/element` run class is not among the sources); §4.1 gives its
rules, evaluated in order: `not_started` if no demux output directory
exists; `ongoing` if it exists but the final statistics file is
absent; `finished` if the final statistics file is present. -/
def demultiplexingStatus (demuxDirExists finalStatsExists : Bool) : DemuxStatus :=
  if ¬ demuxDirExists then DemuxStatus.notStarted
  else if ¬ finalStatsExists then DemuxStatus.ongoing
  else DemuxStatus.finished

/-- The Python status strings `_process` compares
`get_demultiplexing_status()` against. -/
def demuxStatusString : DemuxStatus → String
  | DemuxStatus.notStarted => "not started"
  | DemuxStatus.ongoing => "ongoing"
  | DemuxStatus.finished => "finished"

/-- The derived lifecycle statuses of the §4.1 table. -/
inductive DerivedStatus where
  | SEQUENCING
  | READY_TO_DEMUX
  | DEMULTIPLEXING
  | DEMUX_COMPLETE
  deriving DecidableEq, Repr

/-- The §4.1 combined status derivation table, evaluated in its stated
order: sequencing not done gives `SEQUENCING` whatever the
demultiplexing evidence; otherwise the demultiplexing status selects
the row. -/
def derivedStatus (marker demuxDir stats : Bool) : DerivedStatus :=
  if ¬ marker then DerivedStatus.SEQUENCING
  else
    match demultiplexingStatus demuxDir stats with
    | DemuxStatus.notStarted => DerivedStatus.READY_TO_DEMUX
    | DemuxStatus.ongoing => DerivedStatus.DEMULTIPLEXING
    | DemuxStatus.finished => DerivedStatus.DEMUX_COMPLETE

/-- The branch of the `_process` `if`/`elif` chain a run falls into,
as a derived status (`none` when the demultiplexing status string
matches no branch and the chain falls through). -/
def processBranch (r : ERun) : Option DerivedStatus :=
  if ¬ r.sequencingDone then some DerivedStatus.SEQUENCING
  else if r.demuxStatus = "not started" then some DerivedStatus.READY_TO_DEMUX
  else if r.demuxStatus = "ongoing" then some DerivedStatus.DEMULTIPLEXING
  else if r.demuxStatus = "finished" then some DerivedStatus.DEMUX_COMPLETE
  else none

/-! ## BaseMaskPlanner (spec §4.2) -/

/-- One read-cycle descriptor of the run setup: the `IsIndexedRead`
flag and the `NumCycles` count (the test data writes them as the
strings `"Y"`/`"N"` and a numeral). -/
structure ReadDescriptor where
  isIndexedRead : Bool
  numCycles : Nat
  deriving DecidableEq, Repr

/-- The mask token one read-cycle descriptor contributes, given how
many indexed reads precede it: non-indexed reads emit `Y<cycles>`; the
first indexed read emits `I<indexSize>N<cycles-indexSize>` with the
`N` span omitted when it is zero; a later indexed read emits
`I<index2Size>N<cycles-index2Size>` when dual-indexed and the fully
masked `N<cycles>` otherwise. -/
def maskToken (indexedSeen : Nat) (indexSize : Nat) (dualIndexed : Bool)
    (index2Size : Nat) (rd : ReadDescriptor) : String :=
  if ¬ rd.isIndexedRead then
    "Y" ++ toString rd.numCycles
  else if indexedSeen = 0 then
    "I" ++ toString indexSize ++
      (if rd.numCycles - indexSize > 0 then "N" ++ toString (rd.numCycles - indexSize)
       else "")
  else if dualIndexed then
    "I" ++ toString index2Size ++
      (if rd.numCycles - index2Size > 0 then "N" ++ toString (rd.numCycles - index2Size)
       else "")
  else
    "N" ++ toString rd.numCycles

/-- Token emission over the descriptor list, threading the count of
indexed reads already seen. -/
def computeBaseMaskAux (indexSize : Nat) (dualIndexed : Bool) (index2Size : Nat) :
    List ReadDescriptor → Nat → List String
  | [], _ => []
  | rd :: rest, seen =>
      maskToken seen indexSize dualIndexed index2Size rd ::
        computeBaseMaskAux indexSize dualIndexed index2Size rest
          (if rd.isIndexedRead then seen + 1 else seen)

/-- Modelled from the spec: `_compute_base_mask` (the `taca/illumina`
run classes are not among the sources; §4.2 and the
`test_compute_base_mask` test in `src/tests/test_illumina.py` give its
contract): one mask token per read-cycle descriptor, in order. -/
def computeBaseMask (runSetup : List ReadDescriptor) (indexSize : Nat)
    (dualIndexed : Bool) (index2Size : Nat) : List String :=
  computeBaseMaskAux indexSize dualIndexed index2Size runSetup 0

/-- The number of indexed reads strictly before position `k` of the
run setup. -/
def indexedBefore (runSetup : List ReadDescriptor) (k : Nat) : Nat :=
  ((runSetup.take k).filter (fun rd => rd.isIndexedRead)).length

/-! ## Link-based TransferAgent (spec §4.4) -/

/-- What occupies the destination path, when something does. -/
inductive FsEntry where
  | file
  | symlink
  | directory
  | mountPoint
  deriving DecidableEq, Repr

/-- The filesystem evidence the link-based agent reads and writes:
whether the source path exists, and the entry at the destination
path. -/
structure LinkFs where
  srcExists : Bool
  dest : Option FsEntry
  deriving DecidableEq, Repr

/-- The destructive filesystem operations of the link-based agent, in
the order performed. -/
inductive LinkOp where
  | unlinkDest
  | removeTreeDest
  | createParents
  | createLink
  deriving DecidableEq, Repr

/-- How a transfer attempt ends: the returned success flag, or an
exception. -/
inductive LinkOutcome where
  | returned (success : Bool)
  | raised (msg : String)
  deriving DecidableEq, Repr

/-- Result of one link-based transfer attempt: the operations
performed in order, the filesystem afterwards, and the outcome. -/
structure LinkResult where
  ops : List LinkOp
  fs : LinkFs
  outcome : LinkOutcome
  deriving DecidableEq, Repr

/-- Modelled from the spec: the link-based TransferAgent
(`SymlinkAgent.transfer` in `taca/utils/transfer.py`, not among the
sources; §4.4 and the `TestSymlinkAgent` tests in
`src/tests/test_utils.py` give its contract).  A non-existent source
raises without creating any filesystem entry; with `overwrite`
disabled an existing destination is left untouched and failure is
returned without raising; with `overwrite` enabled an existing file or
link is unlinked and an existing directory recursively removed before
the link is created, except a mount point, which raises; a free
destination gets missing parents created and then the link. -/
def symlinkTransfer (overwrite : Bool) (s : LinkFs) : LinkResult :=
  if ¬ s.srcExists then
    ⟨[], s, LinkOutcome.raised "SymlinkError: source does not exist"⟩
  else
    match s.dest with
    | some e =>
        if ¬ overwrite then ⟨[], s, LinkOutcome.returned false⟩
        else
          match e with
          | FsEntry.mountPoint =>
              ⟨[], s, LinkOutcome.raised "SymlinkError: mount point"⟩
          | FsEntry.file =>
              ⟨[LinkOp.unlinkDest, LinkOp.createLink],
                { s with dest := some FsEntry.symlink }, LinkOutcome.returned true⟩
          | FsEntry.symlink =>
              ⟨[LinkOp.unlinkDest, LinkOp.createLink],
                { s with dest := some FsEntry.symlink }, LinkOutcome.returned true⟩
          | FsEntry.directory =>
              ⟨[LinkOp.removeTreeDest, LinkOp.createLink],
                { s with dest := some FsEntry.symlink }, LinkOutcome.returned true⟩
    | none =>
        ⟨[LinkOp.createParents, LinkOp.createLink],
          { s with dest := some FsEntry.symlink }, LinkOutcome.returned true⟩

/-- The statuses written to statusdb by a trace, in order. -/
def statusWrites (evs : List EEvent) : List String :=
  evs.filterMap fun e =>
    match e with
    | EEvent.updateStatusdb s => some s
    | _ => none

/-! ## Theorems -/

/-- C1: claimed — for a DEMUX_COMPLETE run that is neither recorded as
transferred nor marked as transferring, one poll runs the
DemuxAggregator and then performs the transfer sequence in order.  The
code performs the rest of the sequence in the claimed order but never
runs the aggregator: `run.aggregate_demux_results` is a bare attribute
access, not a call.  This theorem evaluates `_process` at such a run
(last recorded status `demultiplexing`): the full trace contains no
`aggregateDemuxResults` event. -/
theorem c1_transfer_sequence_misses_aggregation :
    process ⟨true, "finished", true, false, false, some "demultiplexing"⟩ =
      ⟨[EEvent.parseRunParameters, EEvent.syncMetadata, EEvent.makeTransferIndicator,
        EEvent.updateStatusdb "transferring", EEvent.transferRun,
        EEvent.removeTransferIndicator, EEvent.updateTransferLog,
        EEvent.updateStatusdb "transferred", EEvent.archiveRun,
        EEvent.updateStatusdb "archived"],
       ⟨true, "finished", true, false, false, some "archived"⟩, EOutcome.ok⟩ ∧
    EEvent.aggregateDemuxResults ∉
      (process ⟨true, "finished", true, false, false, some "demultiplexing"⟩).events := by
  decide

/-- C2: claimed — with manifests present, the READY_TO_DEMUX branch
creates the demultiplexing directories, launches the tool once per
manifest in sorted order, and records DEMULTIPLEXING.  The code
instead iterates `for run_manifest in run_manifests.sort()` over the
`None` that `list.sort()` returns, raising `TypeError` right after
creating the canonical demux directory and copying the manifests: no
demultiplexing is launched and no status is recorded.  This theorem
evaluates `_process` at such a run. -/
theorem c2_manifest_branch_raises_typeerror :
    process ⟨true, "not started", true, false, false, some "sequencing"⟩ =
      ⟨[EEvent.parseRunParameters, EEvent.mkdirDemuxDir, EEvent.copyManifests],
       ⟨true, "not started", true, false, false, some "sequencing"⟩,
       EOutcome.raised "TypeError"⟩ ∧
    statusWrites
      (process ⟨true, "not started", true, false, false, some "sequencing"⟩).events = [] := by
  decide

/-- C9: in `process_qc_run` an Anglerfish exit code of `0` is falsy,
so the `not anglerfish_exit_code` test fires before the
equality-with-zero test: the branch for "Anglerfish finished
successfully" is unreachable for every exit-code value, and
post-Anglerfish processing is never entered. -/
theorem c9_finished_branch_unreachable :
    (∀ c : Option Int,
      anglerfishBranch c = AfBranch.failedRaise ∨
      anglerfishBranch c = AfBranch.notRun ∨
      anglerfishBranch c = AfBranch.fallThrough) ∧
    anglerfishBranch (some 0) = AfBranch.notRun ∧
    ∀ r : NRun, NEvent.logAnglerfishFinished ∉ (qcProcess r).events := by
  have hbr : ∀ c : Option Int,
      anglerfishBranch c = AfBranch.failedRaise ∨
      anglerfishBranch c = AfBranch.notRun ∨
      anglerfishBranch c = AfBranch.fallThrough := by
    intro c
    rcases c with _ | n
    · exact Or.inr (Or.inl (by decide))
    · by_cases h0 : n = 0
      · subst h0
        exact Or.inr (Or.inl (by decide))
      · by_cases hp : 0 < n
        · exact Or.inl (by simp [anglerfishBranch, exitCodeTruthy, h0, hp])
        · exact Or.inr (Or.inr (by simp [anglerfishBranch, exitCodeTruthy, h0, hp]))
  refine ⟨hbr, by decide, ?_⟩
  intro r
  unfold qcProcess
  rcases hbr r.anglerfishExit with h | h | h <;>
    (rw [h]
     by_cases hs : r.synced <;>
       simp [hs] <;>
       by_cases hpid : r.anglerfishPidFound <;>
       by_cases hss : r.samplesheetFound <;>
       simp [hpid, hss])

/-- C3: for every combination of sequencing-completion marker, demux
directory and final-statistics evidence, the derived status matches
the §4.1 table, and the `_process` branch dispatch agrees with it on
the status string the detector would return: marker absent gives
SEQUENCING; marker present with no demux directory gives
READY_TO_DEMUX; marker present with a directory but no statistics
gives DEMULTIPLEXING; marker present with directory and statistics
gives DEMUX_COMPLETE. -/
theorem c3_status_table (m d s : Bool) (r : ERun)
    (hm : r.sequencingDone = m)
    (hd : r.demuxStatus = demuxStatusString (demultiplexingStatus d s)) :
    processBranch r = some (derivedStatus m d s) ∧
    derivedStatus false d s = DerivedStatus.SEQUENCING ∧
    derivedStatus true false s = DerivedStatus.READY_TO_DEMUX ∧
    derivedStatus true true false = DerivedStatus.DEMULTIPLEXING ∧
    derivedStatus true true true = DerivedStatus.DEMUX_COMPLETE := by
  constructor
  · unfold processBranch
    rw [hm, hd]
    cases m <;> cases d <;> cases s <;> decide
  · refine ⟨?_, ?_, by decide, by decide⟩
    · cases d <;> cases s <;> decide
    · cases s <;> decide

/-- Witness for C3 at the concrete combination (marker present, demux
directory present, statistics absent). -/
theorem c3_status_table_witness :
    processBranch ⟨true, "ongoing", false, false, false, none⟩ =
      some (derivedStatus true true false) ∧
    derivedStatus false true false = DerivedStatus.SEQUENCING ∧
    derivedStatus true false false = DerivedStatus.READY_TO_DEMUX ∧
    derivedStatus true true false = DerivedStatus.DEMULTIPLEXING ∧
    derivedStatus true true true = DerivedStatus.DEMUX_COMPLETE :=
  c3_status_table true true false ⟨true, "ongoing", false, false, false, none⟩ rfl rfl

/-- C4: for a DEMUX_COMPLETE run whose transfer marker exists and that
is not in the transfer ledger, the poll leaves the recorded status at
`transferring` and halts: no transfer is executed, no marker is set,
nothing is appended to the ledger, and the run is not archived, so a
second transfer attempt is never started while the marker is
present. -/
theorem c4_marker_prevents_second_transfer (r : ERun)
    (h1 : r.sequencingDone = true) (h2 : r.demuxStatus = "finished")
    (h3 : r.isTransferred = false) (h4 : r.transferOngoing = true) :
    (process r).outcome = EOutcome.ok ∧
    (process r).run.recorded = some "transferring" ∧
    EEvent.transferRun ∉ (process r).events ∧
    EEvent.makeTransferIndicator ∉ (process r).events ∧
    EEvent.updateTransferLog ∉ (process r).events ∧
    EEvent.archiveRun ∉ (process r).events := by
  unfold process
  rw [h1, h2, h3, h4]
  by_cases hr : r.recorded = some "transferring" <;>
    simp [recordStatus, statusChanged, hr]

/-- Witness for C4 at a concrete marked, unledgered DEMUX_COMPLETE
run. -/
theorem c4_marker_prevents_second_transfer_witness :
    (process ⟨true, "finished", true, false, true, some "demultiplexing"⟩).outcome =
      EOutcome.ok ∧
    (process ⟨true, "finished", true, false, true, some "demultiplexing"⟩).run.recorded =
      some "transferring" ∧
    EEvent.transferRun ∉
      (process ⟨true, "finished", true, false, true, some "demultiplexing"⟩).events ∧
    EEvent.makeTransferIndicator ∉
      (process ⟨true, "finished", true, false, true, some "demultiplexing"⟩).events ∧
    EEvent.updateTransferLog ∉
      (process ⟨true, "finished", true, false, true, some "demultiplexing"⟩).events ∧
    EEvent.archiveRun ∉
      (process ⟨true, "finished", true, false, true, some "demultiplexing"⟩).events :=
  c4_marker_prevents_second_transfer
    ⟨true, "finished", true, false, true, some "demultiplexing"⟩ rfl rfl rfl rfl

/-- Helper: a recorded-status prefix on its own (nothing written) has
no equal neighbours. -/
lemma chainNe_toList (o : Option String) :
    List.Chain' (fun a b => a ≠ b) o.toList := by
  rcases o with _ | a <;> simp

/-- Helper: writing one status differing from the recorded value gives
a list with no equal neighbours. -/
lemma chainNe_toList_single (o : Option String) (s : String) (ho : ¬ o = some s) :
    List.Chain' (fun a b => a ≠ b) (o.toList ++ [s]) := by
  rcases o with _ | a
  · simp
  · simp only [Option.toList, List.cons_append, List.nil_append, List.chain'_cons,
      List.chain'_singleton, and_true]
    intro heq
    exact ho (by rw [heq])

/-- C6: on every poll and in every branch, statusdb is written only
when the status being recorded differs from the last recorded value:
prefixing the statuses a poll writes (in order) with the previously
recorded value yields a list in which no two neighbours are equal.  In
particular a poll that derives the same status as the previous one
writes nothing. -/
theorem c6_no_redundant_status_writes (r : ERun) :
    List.Chain' (fun a b => a ≠ b) (r.recorded.toList ++ statusWrites (process r).events) := by
  rcases r with ⟨sd, ds, me, itr, tro, rec⟩
  cases sd with
  | false =>
      by_cases h : rec = some "sequencing"
      · simp [process, recordStatus, statusChanged, statusWrites, h]
      · simp [process, recordStatus, statusChanged, statusWrites, h]
        exact chainNe_toList_single rec "sequencing" h
  | true =>
      by_cases h1 : ds = "not started"
      · by_cases hme : me = true <;>
          simp [process, recordStatus, statusChanged, statusWrites, h1, hme] <;>
          exact chainNe_toList rec
      · by_cases h2 : ds = "ongoing"
        · by_cases h : rec = some "demultiplexing" <;>
            simp [process, recordStatus, statusChanged, statusWrites, h1, h2, h]
          exact chainNe_toList_single rec "demultiplexing" h
        · by_cases h3 : ds = "finished"
          · by_cases hit : itr = true
            · simp [process, recordStatus, statusChanged, statusWrites, h1, h2, h3, hit]
              exact chainNe_toList rec
            · by_cases hto : tro = true
              · by_cases h : rec = some "transferring" <;>
                  simp [process, recordStatus, statusChanged, statusWrites,
                    h1, h2, h3, hit, hto, h]
                exact chainNe_toList_single rec "transferring" h
              · by_cases h : rec = some "transferring" <;>
                  simp [process, recordStatus, statusChanged, statusWrites,
                    h1, h2, h3, hit, hto, h]
                exact chainNe_toList_single rec "transferring" h
          · simp [process, recordStatus, statusChanged, statusWrites, h1, h2, h3]
            exact chainNe_toList rec

/-- Helper: no branch of the element `_process` notifies an operator
by mail (the source only carries TODO comments about it). -/
lemma process_no_email (r : ERun) : EEvent.emailOperator ∉ (process r).events := by
  rcases r with ⟨sd, ds, me, itr, tro, rec⟩
  cases sd with
  | false =>
      by_cases h : rec = some "sequencing" <;>
        simp [process, recordStatus, statusChanged, h]
  | true =>
      by_cases h1 : ds = "not started"
      · by_cases hme : me = true <;>
          simp [process, recordStatus, statusChanged, h1, hme]
      · by_cases h2 : ds = "ongoing"
        · by_cases h : rec = some "demultiplexing" <;>
            simp [process, recordStatus, statusChanged, h1, h2, h]
        · by_cases h3 : ds = "finished"
          · by_cases hit : itr = true
            · simp [process, recordStatus, statusChanged, h1, h2, h3, hit]
            · by_cases hto : tro = true
              · by_cases h : rec = some "transferring" <;>
                  simp [process, recordStatus, statusChanged, h1, h2, h3, hit, hto, h]
              · by_cases h : rec = some "transferring" <;>
                  simp [process, recordStatus, statusChanged, h1, h2, h3, hit, hto, h]
          · simp [process, recordStatus, statusChanged, h1, h2, h3]

/-- C5: claimed — a per-run exception during a poll cycle is caught at
the top level, reported with full diagnostic context to the
notification collaborator, and the cycle continues.  In the element
controller the bare `except:` only logs a generic warning and never
notifies: at this poll over two runs the first run raises and the
combined trace contains no operator notification at all. -/
theorem c5_element_failure_not_reported :
    (process ⟨true, "not started", true, false, false, some "sequencing"⟩).outcome =
      EOutcome.raised "TypeError" ∧
    runPreprocessingAll
      [⟨true, "not started", true, false, false, some "sequencing"⟩,
       ⟨false, "not started", false, false, false, none⟩] =
      [[EEvent.parseRunParameters, EEvent.mkdirDemuxDir, EEvent.copyManifests,
        EEvent.logWarnProcessingError],
       [EEvent.parseRunParameters, EEvent.updateStatusdb "sequencing"]] ∧
    EEvent.emailOperator ∉
      (runPreprocessingAll
        [⟨true, "not started", true, false, false, some "sequencing"⟩,
         ⟨false, "not started", false, false, false, none⟩]).flatten := by
  decide

/-- C5 (amended): per-run exceptions during a poll cycle are caught at
the top level and the cycle continues with the next run, so no run's
failure prevents later runs from being processed; the nanopore
controller reports the failure to the notification collaborator by
email with the run name and error, but the element controller only
logs a generic warning and never notifies. -/
theorem c5_poll_continues_after_failure (r : ERun) (n : NRun) (msg msg' : String)
    (he : (process r).outcome = EOutcome.raised msg)
    (hn : (processRun n).outcome = EOutcome.raised msg') :
    (∀ rs₁ rs₂ : List ERun,
      runPreprocessingAll (rs₁ ++ r :: rs₂) =
        runPreprocessingAll rs₁ ++ elementHandleRun r :: runPreprocessingAll rs₂) ∧
    elementHandleRun r = (process r).events ++ [EEvent.logWarnProcessingError] ∧
    EEvent.emailOperator ∉ elementHandleRun r ∧
    (∀ ns₁ ns₂ : List NRun,
      ontTransferAll (ns₁ ++ n :: ns₂) =
        ontTransferAll ns₁ ++ ontHandleRun n :: ontTransferAll ns₂) ∧
    ontHandleRun n = (processRun n).events ++ [NEvent.sendErrorMail n.runName msg'] := by
  refine ⟨?_, ?_, ?_, ?_, ?_⟩
  · intro rs₁ rs₂
    simp [runPreprocessingAll]
  · simp [elementHandleRun, he]
  · simp [elementHandleRun, he, process_no_email r]
  · intro ns₁ ns₂
    simp [ontTransferAll]
  · simp [ontHandleRun, hn]

/-- Witness for C5 (amended) at a concrete poll: the element run that
raises `TypeError` in the manifest branch, and a synced nanopore QC
run whose Anglerfish exit code 1 raises `AssertionError`. -/
theorem c5_poll_continues_after_failure_witness :
    runPreprocessingAll
        ([] ++ ⟨true, "not started", true, false, false, some "sequencing"⟩ ::
          [⟨false, "not started", false, false, false, none⟩]) =
      runPreprocessingAll [] ++
        elementHandleRun ⟨true, "not started", true, false, false, some "sequencing"⟩ ::
          runPreprocessingAll [⟨false, "not started", false, false, false, none⟩] ∧
    elementHandleRun ⟨true, "not started", true, false, false, some "sequencing"⟩ =
      (process ⟨true, "not started", true, false, false, some "sequencing"⟩).events ++
        [EEvent.logWarnProcessingError] ∧
    EEvent.emailOperator ∉
      elementHandleRun ⟨true, "not started", true, false, false, some "sequencing"⟩ ∧
    ontTransferAll ([] ++ ⟨"runA", true, true, false, some 1, false, false⟩ :: []) =
      ontTransferAll [] ++
        ontHandleRun ⟨"runA", true, true, false, some 1, false, false⟩ ::
          ontTransferAll [] ∧
    ontHandleRun ⟨"runA", true, true, false, some 1, false, false⟩ =
      (processRun ⟨"runA", true, true, false, some 1, false, false⟩).events ++
        [NEvent.sendErrorMail "runA" "AssertionError"] := by
  have h := c5_poll_continues_after_failure
    ⟨true, "not started", true, false, false, some "sequencing"⟩
    ⟨"runA", true, true, false, some 1, false, false⟩
    "TypeError" "AssertionError" (by decide) (by decide)
  exact ⟨h.1 [] [⟨false, "not started", false, false, false, none⟩],
    h.2.1, h.2.2.1, h.2.2.2.1 [] [], h.2.2.2.2⟩

/-- Helper: unfolding `indexedBefore` over a cons cell at a successor
position. -/
lemma indexedBefore_cons_succ (rd : ReadDescriptor) (rest : List ReadDescriptor) (k : Nat) :
    indexedBefore (rd :: rest) (k + 1) =
      (if rd.isIndexedRead then 1 else 0) + indexedBefore rest k := by
  simp only [indexedBefore, List.take_succ_cons, List.filter_cons]
  split_ifs <;> simp [Nat.add_comm]

/-- Helper: the token at position `k` of the emitted mask list is the
token of the descriptor at `k`, with the indexed-read ordinal shifted
by the starting count. -/
lemma computeBaseMaskAux_get? (i : Nat) (d : Bool) (i2 : Nat) :
    ∀ (rs : List ReadDescriptor) (seen k : Nat),
      (computeBaseMaskAux i d i2 rs seen).get? k =
        (rs.get? k).map (maskToken (seen + indexedBefore rs k) i d i2) := by
  intro rs
  induction rs with
  | nil =>
      intro seen k
      simp [computeBaseMaskAux]
  | cons rd rest ih =>
      intro seen k
      cases k with
      | zero => simp [computeBaseMaskAux, indexedBefore]
      | succ k =>
          simp only [computeBaseMaskAux, List.get?_cons_succ]
          rw [ih, indexedBefore_cons_succ]
          cases hrd : rd.isIndexedRead <;> simp [hrd, Nat.add_assoc, Nat.add_comm]

/-- C7: `computeBaseMask` is a pure function of its four arguments:
position by position it emits `Y<cycles>` for a non-indexed read,
`I<indexSize>N<cycles-indexSize>` for the first indexed read, and for
a later indexed read `I<index2Size>N<cycles-index2Size>` when
dual-indexed and `N<cycles>` otherwise; on the read cycles
[(N,151),(Y,8),(Y,8),(N,151)] with indexSize 7, dual indexing and
index2Size 7 it returns [Y151, I7N1, I7N1, Y151]. -/
theorem c7_compute_base_mask :
    (∀ (rs : List ReadDescriptor) (i : Nat) (d : Bool) (i2 : Nat) (k : Nat),
      (computeBaseMask rs i d i2).get? k =
        (rs.get? k).map (maskToken (indexedBefore rs k) i d i2)) ∧
    computeBaseMask [⟨false, 151⟩, ⟨true, 8⟩, ⟨true, 8⟩, ⟨false, 151⟩] 7 true 7 =
      ["Y151", "I7N1", "I7N1", "Y151"] := by
  constructor
  · intro rs i d i2 k
    simpa using computeBaseMaskAux_get? i d i2 rs 0 k
  · rfl

/-- C8: for the link-based transfer agent, a non-existent source
raises and changes nothing at the destination; with overwrite disabled
an existing destination file makes the transfer return failure without
raising and without touching the file; with overwrite enabled an
existing destination directory is recursively removed before the link
is created. -/
theorem c8_symlink_agent (ow : Bool) (s₁ s₂ s₃ : LinkFs)
    (h1 : s₁.srcExists = false)
    (h2 : s₂.srcExists = true) (h3 : s₂.dest = some FsEntry.file)
    (h4 : s₃.srcExists = true) (h5 : s₃.dest = some FsEntry.directory) :
    (symlinkTransfer ow s₁).outcome =
      LinkOutcome.raised "SymlinkError: source does not exist" ∧
    (symlinkTransfer ow s₁).fs = s₁ ∧
    (symlinkTransfer ow s₁).ops = [] ∧
    (symlinkTransfer false s₂).outcome = LinkOutcome.returned false ∧
    (symlinkTransfer false s₂).fs = s₂ ∧
    (symlinkTransfer false s₂).ops = [] ∧
    (symlinkTransfer true s₃).ops = [LinkOp.removeTreeDest, LinkOp.createLink] ∧
    (symlinkTransfer true s₃).outcome = LinkOutcome.returned true ∧
    (symlinkTransfer true s₃).fs.dest = some FsEntry.symlink := by
  unfold symlinkTransfer
  rw [h1, h2, h3, h4, h5]
  simp

/-- Witness for C8 at concrete filesystems: a missing source, an
occupied destination file without overwrite, and an occupied
destination directory with overwrite. -/
theorem c8_symlink_agent_witness :
    (symlinkTransfer false ⟨false, none⟩).outcome =
      LinkOutcome.raised "SymlinkError: source does not exist" ∧
    (symlinkTransfer false ⟨false, none⟩).fs = (⟨false, none⟩ : LinkFs) ∧
    (symlinkTransfer false ⟨false, none⟩).ops = [] ∧
    (symlinkTransfer false ⟨true, some FsEntry.file⟩).outcome =
      LinkOutcome.returned false ∧
    (symlinkTransfer false ⟨true, some FsEntry.file⟩).fs =
      (⟨true, some FsEntry.file⟩ : LinkFs) ∧
    (symlinkTransfer false ⟨true, some FsEntry.file⟩).ops = [] ∧
    (symlinkTransfer true ⟨true, some FsEntry.directory⟩).ops =
      [LinkOp.removeTreeDest, LinkOp.createLink] ∧
    (symlinkTransfer true ⟨true, some FsEntry.directory⟩).outcome =
      LinkOutcome.returned true ∧
    (symlinkTransfer true ⟨true, some FsEntry.directory⟩).fs.dest =
      some FsEntry.symlink :=
  c8_symlink_agent false ⟨false, none⟩ ⟨true, some FsEntry.file⟩
    ⟨true, some FsEntry.directory⟩ rfl rfl rfl rfl rfl

/-- C10: for every fully synced QC run, `process_qc_run` makes the
content assertion, statusdb update and HTML-report copy on the
module-level imported `ONT_user_run` class object, and never calls any
of those three methods on the QC run object it was given. -/
theorem c10_qc_calls_bound_to_imported_class (r : NRun) (h : r.synced = true) :
    (qcProcess r).events.take 4 =
      [NEvent.touchDbEntry, NEvent.assertContents Recv.importedClass,
       NEvent.updateDbEntry Recv.importedClass,
       NEvent.copyHtmlReport Recv.importedClass] ∧
    NEvent.assertContents Recv.runObject ∉ (qcProcess r).events ∧
    NEvent.updateDbEntry Recv.runObject ∉ (qcProcess r).events ∧
    NEvent.copyHtmlReport Recv.runObject ∉ (qcProcess r).events := by
  unfold qcProcess
  rw [h]
  cases hbr : anglerfishBranch r.anglerfishExit with
  | failedRaise => simp [hbr]
  | notRun =>
      by_cases hpid : r.anglerfishPidFound <;>
        by_cases hss : r.samplesheetFound <;>
        simp [hbr, hpid, hss]
  | finishedOk => simp [hbr]
  | fallThrough => simp [hbr]

/-- Witness for C10 at a concrete synced QC run. -/
theorem c10_qc_calls_bound_to_imported_class_witness :
    (qcProcess ⟨"runQ", true, true, false, none, false, false⟩).events.take 4 =
      [NEvent.touchDbEntry, NEvent.assertContents Recv.importedClass,
       NEvent.updateDbEntry Recv.importedClass,
       NEvent.copyHtmlReport Recv.importedClass] ∧
    NEvent.assertContents Recv.runObject ∉
      (qcProcess ⟨"runQ", true, true, false, none, false, false⟩).events ∧
    NEvent.updateDbEntry Recv.runObject ∉
      (qcProcess ⟨"runQ", true, true, false, none, false, false⟩).events ∧
    NEvent.copyHtmlReport Recv.runObject ∉
      (qcProcess ⟨"runQ", true, true, false, none, false, false⟩).events :=
  c10_qc_calls_bound_to_imported_class
    ⟨"runQ", true, true, false, none, false, false⟩ rfl

end Taca
